import Mathlib

/-!
Verification development for the PushyServices repository.

The repository is a small Node/Express service that relays Podio push
notifications.  It has two ingestion paths: a signed webhook endpoint
(`POST /podio/push`) and managed Faye/CometD (Bayeux) subscriptions
created through a control API (`POST /subscribe`, `POST /unsubscribe`).
The two source files, `src/server.js` and `src/unnamed/part_000`, each
contain variants of the server; the definitions below embed the cited
handlers and helper functions of both, suffixed `Srv` (for the code of
`src/server.js`, first variant) and `Part` / `V2` (for the code of
`src/unnamed/part_000`; `V2` names its second variant, which is also the
second variant of `src/server.js`).

JavaScript features are embedded explicitly:
- `undefined` / absent values are `Option`;
- JS truthiness of strings (`""` is falsy) and numbers (`0` is falsy)
  is `truthyO` / `truthyN`;
- a JS `Map` is an association list with insertion-order `aset`
  (replace-or-append) and `adelete`;
- code that can throw is modelled with an explicit `raised` constructor;
  a `try { .. } catch {}` block is a `match` whose error arm discards
  the error;
- the HMAC-SHA1 digest supplied by Node's `crypto` module is an
  abstract parameter `hmac : String → String → String` (key, then
  message, to hex digest); every theorem quantifies over it, and the
  abstract serialization `JSON.stringify(body)` is carried as the
  `payload` field of a webhook body.
-/

/-- JS truthiness of a possibly-undefined string: `undefined` and `""`
are falsy, every other string is truthy. -/
def truthyO : Option String → Bool
  | none => false
  | some s => s != ""

/-- JS truthiness of a possibly-undefined number: `undefined` and `0`
are falsy. -/
def truthyN : Option Int → Bool
  | none => false
  | some n => n != 0

/-- JS `===` between a computed string and a possibly-undefined string:
comparison with `undefined` is `false`, never an error. -/
def jsStrEq (computed : String) : Option String → Bool
  | none => false
  | some s => computed == s

/-- JS template interpolation of a possibly-undefined string:
`undefined` prints as `"undefined"`. -/
def jsTemplate : Option String → String
  | none => "undefined"
  | some s => s

/-- Insertion-order association-list update, the behaviour of assigning
a key in a JS object or `Map`: an existing key is overwritten in place,
a new key is appended. -/
def aset {α : Type} : List (String × α) → String → α → List (String × α)
  | [], k, v => [(k, v)]
  | (k', v') :: rest, k, v =>
    if k' = k then (k, v) :: rest else (k', v') :: aset rest k v

/-- Association-list lookup, the behaviour of `Map.get` / property
access (first match wins). -/
def alookup {α : Type} (k : String) : List (String × α) → Option α
  | [] => none
  | (k', v) :: rest => if k' = k then some v else alookup k rest

/-- Association-list removal, the behaviour of `Map.delete`. -/
def adelete {α : Type} : List (String × α) → String → List (String × α)
  | [], _ => []
  | (k', v) :: rest, k =>
    if k' = k then adelete rest k else (k', v) :: adelete rest k

/-- Number of entries stored under a key. -/
def acount {α : Type} (k : String) : List (String × α) → Nat
  | [] => 0
  | (k', _) :: rest => (if k' = k then 1 else 0) + acount k rest

/-- Keys are pairwise distinct — the invariant a JS `Map` maintains. -/
def nodupKeys {α : Type} : List (String × α) → Bool
  | [] => true
  | (k, _) :: rest => (alookup k rest).isNone && nodupKeys rest

theorem alookup_aset_self {α : Type} (l : List (String × α)) (k : String) (v : α) :
    alookup k (aset l k v) = some v := by
  induction l with
  | nil => simp [aset, alookup]
  | cons hd tl ih =>
    obtain ⟨k', v'⟩ := hd
    by_cases h : k' = k
    · simp [aset, alookup, h]
    · simp [aset, alookup, h, ih]

theorem alookup_aset_ne {α : Type} (l : List (String × α)) {k k' : String} (v : α)
    (h : k' ≠ k) : alookup k' (aset l k v) = alookup k' l := by
  induction l with
  | nil => simp [aset, alookup, Ne.symm h]
  | cons hd tl ih =>
    obtain ⟨k0, v0⟩ := hd
    by_cases hk : k0 = k
    · subst hk
      simp [aset, alookup, Ne.symm h]
    · simp only [aset, if_neg hk]
      by_cases hk' : k0 = k'
      · simp [alookup, hk']
      · simp [alookup, hk', ih]

theorem alookup_adelete_self {α : Type} (l : List (String × α)) (k : String) :
    alookup k (adelete l k) = none := by
  induction l with
  | nil => simp [adelete, alookup]
  | cons hd tl ih =>
    obtain ⟨k', v'⟩ := hd
    by_cases h : k' = k
    · simp [adelete, h, ih]
    · simp [adelete, alookup, h, ih]

theorem alookup_adelete_ne {α : Type} (l : List (String × α)) {k k' : String}
    (h : k' ≠ k) : alookup k' (adelete l k) = alookup k' l := by
  induction l with
  | nil => simp [adelete]
  | cons hd tl ih =>
    obtain ⟨k0, v0⟩ := hd
    by_cases hk : k0 = k
    · subst hk
      simp [adelete, alookup, Ne.symm h, ih]
    · by_cases hk' : k0 = k'
      · simp [adelete, alookup, hk, hk', h]
      · simp [adelete, alookup, hk, hk', ih]

theorem acount_of_alookup_none {α : Type} (l : List (String × α)) (k : String)
    (h : alookup k l = none) : acount k l = 0 := by
  induction l with
  | nil => simp [acount]
  | cons hd tl ih =>
    obtain ⟨k', v'⟩ := hd
    by_cases hk : k' = k
    · simp [alookup, hk] at h
    · simp only [alookup, if_neg hk] at h
      simp [acount, hk, ih h]

theorem acount_of_nodup_lookup {α : Type} (l : List (String × α)) (k : String)
    (e : α) (hn : nodupKeys l = true) (h : alookup k l = some e) :
    acount k l = 1 := by
  induction l with
  | nil => simp [alookup] at h
  | cons hd tl ih =>
    obtain ⟨k', v'⟩ := hd
    simp only [nodupKeys, Bool.and_eq_true, Option.isNone_iff_eq_none] at hn
    by_cases hk : k' = k
    · subst hk
      simp only [alookup, if_pos rfl] at h
      simp [acount, acount_of_alookup_none tl k' hn.1]
    · simp only [alookup, if_neg hk] at h
      simp [acount, hk, ih hn.2 h]

/-- A Bayeux protocol message as seen by a Faye outgoing extension:
its channel (`"/meta/subscribe"` for the subscribe control message),
its `subscription` field (the target channel of a subscribe control
message; absent on other messages), and its `ext` field, an object of
protocol-extension entries (`message.ext = message.ext || {}` followed
by two property assignments is `aset` twice). -/
structure BayeuxMessage where
  channel : String
  subscription : Option String
  ext : List (String × String)
deriving DecidableEq

/-- Outgoing extension installed by `createFayeClient` in
`src/server.js` (lines 91–100): on any message whose channel is
`"/meta/subscribe"` it sets `ext.private_pub_signature` to the bound
signature and `ext.private_pub_timestamp` to `String(timestamp)`; the
bound channel is in scope in `createFayeClient` but is not consulted
by the extension. -/
def outgoingSrv (signature : String) (timestamp : Int) (msg : BayeuxMessage) :
    BayeuxMessage :=
  if msg.channel = "/meta/subscribe" then
    { msg with
      ext := aset (aset msg.ext "private_pub_signature" signature)
        "private_pub_timestamp" (toString timestamp) }
  else msg

/-- Outgoing extension installed by `subscribeToChannel` in
`src/unnamed/part_000` (lines 79–88): it adds the two ext fields only
when the message is the `"/meta/subscribe"` control message **and** its
`subscription` field equals the channel the extension was bound to
(`String(signature)` and `String(timestamp)`; the signature is already
a string in the model). -/
def outgoingPart (channel : String) (signature : String) (timestamp : Int)
    (msg : BayeuxMessage) : BayeuxMessage :=
  if msg.channel = "/meta/subscribe" ∧ msg.subscription = some channel then
    { msg with
      ext := aset (aset msg.ext "private_pub_signature" signature)
        "private_pub_timestamp" (toString timestamp) }
  else msg

/-- An inbound webhook body for `POST /podio/push`: its `type` and
`challenge` fields and, abstractly, its canonical JSON serialization
`payload` (what `JSON.stringify(body)` produces; it is an opaque string
as far as the cited code is concerned). -/
structure WebhookBody where
  type : Option String
  challenge : Option String
  payload : String
deriving DecidableEq

/-- Result of Node's `crypto.createHmac("sha1", key)`: it throws when
the key is `undefined`, otherwise it yields the keyed digest
function. -/
inductive HmacInit where
  | raised
  | keyed (digest : String → String)

/-- `crypto.createHmac("sha1", key)` over the abstract digest family
`hmac` (key to message to hex digest): a missing key raises a
`TypeError`, a present key selects the keyed digest. -/
def createHmacSha1 (hmac : String → String → String) :
    Option String → HmacInit
  | none => HmacInit.raised
  | some k => HmacInit.keyed (hmac k)

/-- Result of calling a JS function that may throw: either a raised
exception or a boolean value. -/
inductive VerdictV where
  | raised
  | value (b : Bool)
deriving DecidableEq

/-- The verdict is an ordinary boolean (no exception). -/
def VerdictV.isValue : VerdictV → Bool
  | .raised => false
  | .value _ => true

/-- `validatePodioSignature` of `src/server.js` (lines 65–71): HMAC-SHA1
of `JSON.stringify(body)` keyed with `PODIO_PUSH_SECRET || ""` (so a
missing secret falls back to the empty string and `createHmac` never
throws), hex digest compared with `===` to the provided signature
(comparison with `undefined` is `false`). -/
def validatePodioSignature (hmac : String → String → String)
    (secret : Option String) (body : WebhookBody) (signature : Option String) :
    VerdictV :=
  match createHmacSha1 hmac (some (secret.getD "")) with
  | HmacInit.raised => VerdictV.raised
  | HmacInit.keyed digest => VerdictV.value (jsStrEq (digest body.payload) signature)

/-- `validatePodioSignature` of `src/unnamed/part_000` (lines 265–272,
second variant): identical except that the key is `PODIO_PUSH_SECRET`
with no fallback, so `createHmac` throws when the secret is unset. -/
def validatePodioSignatureV2 (hmac : String → String → String)
    (secret : Option String) (body : WebhookBody) (signature : Option String) :
    VerdictV :=
  match createHmacSha1 hmac secret with
  | HmacInit.raised => VerdictV.raised
  | HmacInit.keyed digest => VerdictV.value (jsStrEq (digest body.payload) signature)

/-- Outcome of one `axios.post` dispatch to a forward target. -/
def axiosPost (fails : Bool) : Except String Unit :=
  if fails then Except.error "ECONNREFUSED" else Except.ok ()

/-- `forwardToAVA` of `src/server.js` (lines 38–48): returns without
doing anything when `AVA_TOPIC_URL` is unset or empty; otherwise posts
the payload and catches any delivery error (the `catch` arm only logs),
so the function always returns normally — the result records the
attempted target URL and whether delivery succeeded. -/
def forwardToAVA (url : Option String) (fails : Bool) :
    Option (String × Bool) :=
  if truthyO url then
    match axiosPost fails with
    | Except.ok _ => some (url.getD "", true)
    | Except.error _ => some (url.getD "", false)
  else none

/-- `forwardToDebug` of `src/server.js` (lines 50–60): same shape as
`forwardToAVA` with `DEBUG_WEBHOOK_URL`. -/
def forwardToDebug (url : Option String) (fails : Bool) :
    Option (String × Bool) :=
  if truthyO url then
    match axiosPost fails with
    | Except.ok _ => some (url.getD "", true)
    | Except.error _ => some (url.getD "", false)
  else none

def optList {α : Type} : Option α → List α
  | none => []
  | some a => [a]

/-- The fan-out both ingestion paths perform: `forwardToAVA` then
`forwardToDebug` (webhook handler lines 134–136, bus subscription
callback lines 167–172 of `src/server.js`).  The list records, in
dispatch order, each attempted target with its delivery outcome; since
each forwarder swallows its own error, the fan-out itself never
raises. -/
def relayList (ava debug : Option String) (failAVA failDebug : Bool) :
    List (String × Bool) :=
  optList (forwardToAVA ava failAVA) ++ optList (forwardToDebug debug failDebug)

/-- An HTTP response of the `/podio/push` webhook handler. -/
inductive PushResponse where
  | handshake (challenge : Option String) (subscribeUrl : String)
  | unauthorized
  | okAccepted
deriving DecidableEq

def PushResponse.isHandshake : PushResponse → Bool
  | .handshake _ _ => true
  | _ => false

/-- Result of one `/podio/push` request: either an uncaught exception
escaped the handler, or a response was sent together with the list of
forward-target dispatches the request triggered. -/
inductive HResult where
  | raised
  | resp (r : PushResponse) (deliveries : List (String × Bool))
deriving DecidableEq

/-- The response component of a handler result, ignoring deliveries. -/
def respOfH : HResult → Option PushResponse
  | HResult.raised => none
  | HResult.resp r _ => some r

/-- `app.post("/podio/push")` of `src/server.js` (lines 113–139).
Control flow: (1) if `body.type === "subscription_verification" &&
body.challenge`, immediately respond with the handshake JSON echoing
`body.challenge` (no signature logic runs, nothing is forwarded);
(2) otherwise read the `x-podio-signature` header; if it is falsy, or
`validatePodioSignature` rejects, respond 401 with no forwarding;
(3) otherwise respond 200 `OK` after firing `forwardToAVA` and
`forwardToDebug`.  Short-circuit of `!signature ||` means the verifier
is only invoked on a truthy header. -/
def podioPushHandler (hmac : String → String → String)
    (secret appBase ava debug : Option String) (failAVA failDebug : Bool)
    (body : WebhookBody) (sigHeader : Option String) : HResult :=
  if body.type == some "subscription_verification" && truthyO body.challenge then
    HResult.resp
      (PushResponse.handshake body.challenge ((appBase.getD "") ++ "/podio/push")) []
  else if !(truthyO sigHeader) then
    HResult.resp PushResponse.unauthorized []
  else
    match validatePodioSignature hmac secret body sigHeader with
    | VerdictV.raised => HResult.raised
    | VerdictV.value true =>
      HResult.resp PushResponse.okAccepted (relayList ava debug failAVA failDebug)
    | VerdictV.value false => HResult.resp PushResponse.unauthorized []

/-- Result of one `/podio/push` request in the second variant: either an
uncaught exception, or a response together with whether the relay
fan-out was invoked. -/
inductive VResult where
  | raised
  | resp (r : PushResponse) (relayed : Bool)
deriving DecidableEq

/-- `app.post("/podio/push")` of the second variant (lines 305–336 of
`src/unnamed/part_000` after its separator; identically lines 298–336
of the second variant of `src/server.js`): the handshake branch tests
only `body.type === "subscription_verification"` (no challenge check)
and echoes `body["challenge"]` as is; `APP_BASE_URL` is interpolated
without fallback; the signature check uses `validatePodioSignatureV2`,
which raises when the secret is unset. -/
def podioPushHandlerV2 (hmac : String → String → String)
    (secret appBase : Option String) (body : WebhookBody)
    (sigHeader : Option String) : VResult :=
  if body.type == some "subscription_verification" then
    VResult.resp
      (PushResponse.handshake body.challenge (jsTemplate appBase ++ "/podio/push")) false
  else if !(truthyO sigHeader) then
    VResult.resp PushResponse.unauthorized false
  else
    match validatePodioSignatureV2 hmac secret body sigHeader with
    | VerdictV.raised => VResult.raised
    | VerdictV.value true => VResult.resp PushResponse.okAccepted true
    | VerdictV.value false => VResult.resp PushResponse.unauthorized false

/-- A subscription-registry entry.  In `src/server.js` each entry holds
`{ client, subscription, createdAt }`; only `createdAt` flows back into
a response, so the handles are not carried in the model. -/
structure SubEntry where
  createdAt : String
deriving DecidableEq

/-- The in-memory subscription registry (`subs` in `src/server.js`,
`active` in `src/unnamed/part_000`): a JS `Map` from channel to
entry. -/
abbrev Registry := List (String × SubEntry)

/-- The body field `push` of a `POST /subscribe` request. -/
structure PushBlob where
  channel : Option String
  signature : Option String
  timestamp : Option Int
  expiresIn : Option Int
deriving DecidableEq

/-- Whether the bus acknowledges a subscribe request within the
confirmation wait bound. -/
inductive ConfirmOutcome where
  | confirmed
  | timeout
deriving DecidableEq

/-- Outcome of an awaited JS operation: a resolved status string or a
rejection carrying the error message. -/
inductive POutcome where
  | okS (status : String)
  | errS (msg : String)
deriving DecidableEq

/-- The confirmation wait bound of `subscribeToChannel`
(`setTimeout(..., 15000)`, line 122 of `src/unnamed/part_000`), in
milliseconds. -/
def subscribeTimeoutMs : Nat := 15000

/-- Execution trace of `subscribeToChannel` of `src/unnamed/part_000`
(lines 66–128): `regAtWait` is the registry contents while the function
is suspended awaiting the subscribe confirmation (between lines 112 and
123), `regFinal` the contents when it returns or rejects, `result` the
resolved value or the rejection, and `clientCreated` whether a Faye
client was constructed during the call. -/
structure SubTrace where
  regAtWait : Registry
  regFinal : Registry
  result : POutcome
  clientCreated : Bool
deriving DecidableEq

/-- `subscribeToChannel` of `src/unnamed/part_000` (lines 66–128).
If the registry already holds the channel it resolves with
`"already_subscribed"` and touches nothing.  Otherwise it creates a
dedicated Faye client, issues the subscribe, and awaits confirmation:
`active.set(channel, ...)` (line 125) runs only **after** the await at
lines 112–123 resolves, so during the wait the registry holds no entry
for the channel; if the 15-second timer fires first the promise rejects
with `"Subscribe timeout (no confirmation received)"` and the `set` is
never reached. -/
def subscribeToChannel (reg : Registry) (channel : String)
    (outcome : ConfirmOutcome) (now : String) : SubTrace :=
  if (alookup channel reg).isSome then
    ⟨reg, reg, POutcome.okS "already_subscribed", false⟩
  else
    match outcome with
    | ConfirmOutcome.confirmed =>
      ⟨reg, aset reg channel ⟨now⟩, POutcome.okS "subscribed", true⟩
    | ConfirmOutcome.timeout =>
      ⟨reg, reg, POutcome.errS "Subscribe timeout (no confirmation received)", true⟩

/-- An HTTP response of `POST /subscribe` in `src/unnamed/part_000`. -/
inductive PartSubResp where
  | badRequest
  | okJson (status : String)
  | serverError (msg : String)
deriving DecidableEq

/-- `app.post("/subscribe")` of `src/unnamed/part_000` (lines 168–189):
`req.body?.push || {}` destructured; missing/falsy `channel`,
`signature` or `timestamp` give 400; otherwise `subscribeToChannel` is
awaited, a resolved status is returned as 200 JSON and a rejection is
caught and returned as 500 with the error message. -/
def subscribeRoutePart (reg : Registry) (push : Option PushBlob)
    (outcome : ConfirmOutcome) (now : String) :
    PartSubResp × Registry × Bool :=
  let p := push.getD ⟨none, none, none, none⟩
  if !(truthyO p.channel && truthyO p.signature && truthyN p.timestamp) then
    (PartSubResp.badRequest, reg, false)
  else
    let t := subscribeToChannel reg (p.channel.getD "") outcome now
    match t.result with
    | POutcome.okS s => (PartSubResp.okJson s, t.regFinal, t.clientCreated)
    | POutcome.errS m => (PartSubResp.serverError m, t.regFinal, t.clientCreated)

/-- An HTTP response of `POST /subscribe` in `src/server.js`. -/
inductive SubRespSrv where
  | badRequest
  | existsResp (channel : String) (expiresIn : Option Int) (createdAt : String)
  | subscribed (channel : String) (expiresIn : Option Int)
deriving DecidableEq

/-- `app.post("/subscribe")` of `src/server.js` (lines 144–190).
Missing `push` or falsy `channel`/`signature`/`timestamp` give 400.
If `subs.has(channel)`, it responds `status: "exists"` with the stored
`createdAt` and creates nothing.  Otherwise it creates a Faye client,
issues the subscribe, stores the entry with `subs.set` immediately
(line 179) and responds `status: "subscribed"` — the response does not
wait for, and is unaffected by, the confirmation outcome (the
`subscription.then(...)` at lines 174–177 only logs). -/
def subscribeHandler (reg : Registry) (push : Option PushBlob) (now : String) :
    SubRespSrv × Registry × Bool :=
  match push with
  | none => (SubRespSrv.badRequest, reg, false)
  | some p =>
    if !(truthyO p.channel && truthyO p.signature && truthyN p.timestamp) then
      (SubRespSrv.badRequest, reg, false)
    else
      let c := p.channel.getD ""
      match alookup c reg with
      | some e => (SubRespSrv.existsResp c p.expiresIn e.createdAt, reg, false)
      | none => (SubRespSrv.subscribed c p.expiresIn, aset reg c ⟨now⟩, true)

/-- One `subscription.cancel()` / `client.disconnect()` call on the bus
client; it may reject or throw at the transport level. -/
def cancelCall (fails : Bool) : Except String Unit :=
  if fails then Except.error "cancel failed" else Except.ok ()

/-- `unsubscribeFromChannel` of `src/unnamed/part_000` (lines 133–150):
`not_found` when the registry has no entry; otherwise
`subscription.cancel()` and `client.disconnect()` are each wrapped in
their own `try { .. } catch (e) { /- ignore -/ }`, the entry is deleted
regardless, and `"unsubscribed"` is returned. -/
def unsubscribeFromChannel (reg : Registry) (channel : String)
    (cancelFails disconnectFails : Bool) : String × Registry :=
  match alookup channel reg with
  | none => ("not_found", reg)
  | some _ =>
    let _ := match cancelCall cancelFails with
      | Except.ok u => u
      | Except.error _ => ()
    let _ := match cancelCall disconnectFails with
      | Except.ok u => u
      | Except.error _ => ()
    ("unsubscribed", adelete reg channel)

/-- An HTTP response of `POST /unsubscribe` in `src/server.js`. -/
inductive USrvResp where
  | badRequest
  | notFound (channel : String)
  | unsubscribed (channel : String)
  | serverError (msg : String)
deriving DecidableEq

/-- `app.post("/unsubscribe")` of `src/server.js` (lines 194–211):
falsy channel gives 400; a missing entry gives `not_found`.  Otherwise
`await entry.subscription.cancel()` runs inside the handler-wide
`try`/`catch`: if it rejects, the `catch` returns 500 and
`subs.delete(channel)` (the next statement) never runs, so the entry
stays in the registry.  No `disconnect` is issued by this variant. -/
def unsubscribeHandler (reg : Registry) (channel : Option String)
    (cancelFails : Bool) : USrvResp × Registry :=
  match channel with
  | none => (USrvResp.badRequest, reg)
  | some c =>
    if c = "" then (USrvResp.badRequest, reg)
    else
      match alookup c reg with
      | none => (USrvResp.notFound c, reg)
      | some _ =>
        match cancelCall cancelFails with
        | Except.error m => (USrvResp.serverError m, reg)
        | Except.ok _ => (USrvResp.unsubscribed c, adelete reg c)

/-- `app.get("/health")` of `src/unnamed/part_000` (lines 212–219): it
reports `Array.from(active.keys())` and performs no mutation — the
registry after the request is the registry before it. -/
def healthHandler (reg : Registry) : List String × Registry :=
  (reg.map Prod.fst, reg)

/-- `app.get("/health")` of `src/server.js` (line 110): a constant
`"OK"`; the handler does not reference the registry at all. -/
def healthHandlerSrv (reg : Registry) : String × Registry :=
  ("OK", reg)

/-- The `/podio/push` handler of `src/server.js` as a step on the
service state: the handler closes over the `subs` map but never reads
or writes it, so its effect on the registry is the identity. -/
def podioPushStep (reg : Registry) (hmac : String → String → String)
    (secret appBase ava debug : Option String) (failAVA failDebug : Bool)
    (body : WebhookBody) (sigHeader : Option String) : HResult × Registry :=
  (podioPushHandler hmac secret appBase ava debug failAVA failDebug body sigHeader,
    reg)

/-- A concrete digest function used to instantiate the universally
quantified HMAC-SHA1 parameter in witnesses; every theorem below holds
for an arbitrary digest. -/
def hmacDemo : String → String → String :=
  fun key msg => key ++ ":" ++ msg

/-- Claim C1 (corrected), counterexample: the claim states the
`src/server.js` interceptor adds the extension fields **only** to the
subscribe control message whose `subscription` equals the bound channel
and passes every other message through unmodified.  The extension built
by `createFayeClient` for channel `"/task/1"` never consults the bound
channel: applied to a subscribe control message targeting
`"/other/1"`, it still adds the fields, so the message does not pass
through unmodified even though `"/other/1" ≠ "/task/1"`. -/
theorem c1_auth_extension_cex :
    outgoingSrv "abc" 1700000000
        ⟨"/meta/subscribe", some "/other/1", []⟩ ≠
      ⟨"/meta/subscribe", some "/other/1", []⟩
    ∧ some "/other/1" ≠ some "/task/1" := by
  decide

/-- Claim C1 (amended): the interceptor of `src/unnamed/part_000`
satisfies the claimed scoping — it adds the `private_pub_signature` and
`private_pub_timestamp` (timestamp as a string) extension fields
exactly on the `"/meta/subscribe"` control message whose subscription
target equals the bound channel, and passes every other message through
unmodified.  The interceptor of `src/server.js` keys only on the
message channel: any non-`"/meta/subscribe"` message passes through
unmodified, and every `"/meta/subscribe"` message — regardless of its
subscription target — gets the two fields. -/
theorem c1_auth_extension_scope (ch s : String) (t : Int) (msg : BayeuxMessage) :
    (msg.channel ≠ "/meta/subscribe" →
      outgoingSrv s t msg = msg ∧ outgoingPart ch s t msg = msg)
    ∧ (msg.channel = "/meta/subscribe" →
      alookup "private_pub_signature" (outgoingSrv s t msg).ext = some s
      ∧ alookup "private_pub_timestamp" (outgoingSrv s t msg).ext =
          some (toString t)
      ∧ (outgoingSrv s t msg).channel = msg.channel
      ∧ (outgoingSrv s t msg).subscription = msg.subscription)
    ∧ (¬(msg.channel = "/meta/subscribe" ∧ msg.subscription = some ch) →
      outgoingPart ch s t msg = msg)
    ∧ (msg.channel = "/meta/subscribe" → msg.subscription = some ch →
      alookup "private_pub_signature" (outgoingPart ch s t msg).ext = some s
      ∧ alookup "private_pub_timestamp" (outgoingPart ch s t msg).ext =
          some (toString t)) := by
  refine ⟨?_, ?_, ?_, ?_⟩
  · intro h
    constructor
    · simp [outgoingSrv, h]
    · have : ¬(msg.channel = "/meta/subscribe" ∧ msg.subscription = some ch) := by
        intro hc
        exact h hc.1
      simp [outgoingPart, this]
  · intro h
    refine ⟨?_, ?_, ?_, ?_⟩
    · simp only [outgoingSrv, if_pos h]
      rw [alookup_aset_ne _ _ (by decide), alookup_aset_self]
    · simp only [outgoingSrv, if_pos h]
      rw [alookup_aset_self]
    · simp [outgoingSrv, h]
    · simp [outgoingSrv, h]
  · intro h
    simp only [outgoingPart, if_neg h]
  · intro h1 h2
    have hc : msg.channel = "/meta/subscribe" ∧ msg.subscription = some ch :=
      ⟨h1, h2⟩
    constructor
    · simp only [outgoingPart, if_pos hc]
      rw [alookup_aset_ne _ _ (by decide), alookup_aset_self]
    · simp only [outgoingPart, if_pos hc]
      rw [alookup_aset_self]

/-- Claim C1 witness: applying the amended theorem at concrete inputs —
the `part_000` interceptor bound to `"/task/1"` leaves a subscribe
message for `"/other/1"` unmodified, and stamps the signature onto the
subscribe message for `"/task/1"` itself. -/
theorem c1_auth_extension_scope_witness :
    outgoingPart "/task/1" "abc" 1700000000
        ⟨"/meta/subscribe", some "/other/1", []⟩ =
      ⟨"/meta/subscribe", some "/other/1", []⟩
    ∧ alookup "private_pub_signature"
        (outgoingPart "/task/1" "abc" 1700000000
          ⟨"/meta/subscribe", some "/task/1", []⟩).ext = some "abc" := by
  constructor
  · exact (c1_auth_extension_scope "/task/1" "abc" 1700000000
      ⟨"/meta/subscribe", some "/other/1", []⟩).2.2.1 (by decide)
  · exact ((c1_auth_extension_scope "/task/1" "abc" 1700000000
      ⟨"/meta/subscribe", some "/task/1", []⟩).2.2.2 rfl rfl).1

/-- Claim C2 (corrected), counterexample: the claim states a duplicate
subscribe call returns status `"exists"`.  `subscribeToChannel` of
`src/unnamed/part_000` (cited lines 68–70), called for a channel that
already has a registry entry, resolves with status
`"already_subscribed"`, which is not `"exists"`. -/
theorem c2_status_cex :
    (subscribeToChannel [("/task/1", ⟨"T0"⟩)] "/task/1"
        ConfirmOutcome.confirmed "T1").result =
      POutcome.okS "already_subscribed"
    ∧ POutcome.okS "already_subscribed" ≠ POutcome.okS "exists" := by
  decide

/-- Claim C2 (amended): for every channel that already has a registry
entry, a second subscribe call is idempotent — it creates no new bus
client, leaves the registry unchanged (hence with exactly one entry for
the channel, given the `Map` key-uniqueness invariant), and reports the
duplicate: `src/server.js` responds with status `"exists"` (echoing the
stored `createdAt`), while `subscribeToChannel` of
`src/unnamed/part_000` resolves with status `"already_subscribed"`. -/
theorem c2_duplicate_subscribe (reg : Registry) (p : PushBlob) (c now : String)
    (out : ConfirmOutcome) (e : SubEntry)
    (hc : p.channel = some c)
    (h1 : truthyO p.channel = true) (h2 : truthyO p.signature = true)
    (h3 : truthyN p.timestamp = true)
    (he : alookup c reg = some e) :
    subscribeHandler reg (some p) now =
      (SubRespSrv.existsResp c p.expiresIn e.createdAt, reg, false)
    ∧ subscribeToChannel reg c out now =
      ⟨reg, reg, POutcome.okS "already_subscribed", false⟩
    ∧ (nodupKeys reg = true → acount c reg = 1) := by
  refine ⟨?_, ?_, ?_⟩
  · rw [hc] at h1
    simp [subscribeHandler, h1, h2, h3, hc, he]
  · simp [subscribeToChannel, he]
  · intro hn
    exact acount_of_nodup_lookup reg c e hn he

/-- Claim C2 witness: the amended theorem applied to a registry already
holding `"/task/1"` and a repeat of the end-to-end scenario-1 request
body. -/
theorem c2_duplicate_subscribe_witness :
    subscribeHandler [("/task/1", ⟨"T0"⟩)]
        (some ⟨some "/task/1", some "abc", some 1700000000, some 21600⟩) "T1" =
      (SubRespSrv.existsResp "/task/1" (some 21600) "T0",
        [("/task/1", ⟨"T0"⟩)], false)
    ∧ acount "/task/1" ([("/task/1", ⟨"T0"⟩)] : Registry) = 1 := by
  have h := c2_duplicate_subscribe [("/task/1", ⟨"T0"⟩)]
    ⟨some "/task/1", some "abc", some 1700000000, some 21600⟩ "/task/1" "T1"
    ConfirmOutcome.confirmed ⟨"T0"⟩ rfl (by decide) (by decide) (by decide)
    (by decide)
  exact ⟨h.1, h.2.2 (by decide)⟩

/-- Claim C3 (corrected), counterexample: the claim states the registry
entry is inserted **before** the bus confirms the subscription.  In
`subscribeToChannel` of `src/unnamed/part_000`, on a fresh registry the
registry held while awaiting confirmation contains no entry for the
channel, and only the registry after a successful confirmation does —
the insertion happens after confirmation, not before. -/
theorem c3_insert_order_cex :
    alookup "/task/1"
        (subscribeToChannel [] "/task/1" ConfirmOutcome.confirmed "T0").regAtWait =
      none
    ∧ alookup "/task/1"
        (subscribeToChannel [] "/task/1" ConfirmOutcome.confirmed "T0").regFinal =
      some ⟨"T0"⟩ := by
  decide

/-- Claim C3 (amended): `subscribeToChannel` of `src/unnamed/part_000`
inserts the registry entry only **after** the bus confirms — while
awaiting confirmation the registry still has no entry for the channel.
If no confirmation arrives within the fixed 15000 ms wait bound, the
call rejects with a timeout error, the `/subscribe` route reports the
failure to the caller as a 500, and the registry is left without any
entry for the channel (no partial state; nothing was inserted, so
nothing needs removing).  The Faye client created before the wait is
not torn down (`clientCreated` stays `true`). -/
theorem c3_timeout_no_partial_state (reg : Registry) (c now : String)
    (h : alookup c reg = none) :
    subscribeToChannel reg c ConfirmOutcome.timeout now =
      ⟨reg, reg, POutcome.errS "Subscribe timeout (no confirmation received)", true⟩
    ∧ (subscribeToChannel reg c ConfirmOutcome.confirmed now).regAtWait = reg
    ∧ (subscribeToChannel reg c ConfirmOutcome.confirmed now).regFinal =
      aset reg c ⟨now⟩
    ∧ alookup c (subscribeToChannel reg c ConfirmOutcome.timeout now).regFinal =
      none
    ∧ subscribeTimeoutMs = 15000
    ∧ (∀ p : PushBlob, p.channel = some c → truthyO (some c) = true →
        truthyO p.signature = true → truthyN p.timestamp = true →
        subscribeRoutePart reg (some p) ConfirmOutcome.timeout now =
          (PartSubResp.serverError "Subscribe timeout (no confirmation received)",
            reg, true)) := by
  refine ⟨?_, ?_, ?_, ?_, rfl, ?_⟩
  · simp [subscribeToChannel, h]
  · simp [subscribeToChannel, h]
  · simp [subscribeToChannel, h]
  · simp [subscribeToChannel, h]
  · intro p hc h1 h2 h3
    simp [subscribeRoutePart, hc, h1, h2, h3, subscribeToChannel, h]

/-- Claim C3 witness: the amended theorem applied to a fresh registry
and channel `"/task/1"` with the confirmation timing out. -/
theorem c3_timeout_no_partial_state_witness :
    subscribeToChannel [] "/task/1" ConfirmOutcome.timeout "T0" =
      ⟨[], [], POutcome.errS "Subscribe timeout (no confirmation received)", true⟩
    ∧ subscribeRoutePart []
        (some ⟨some "/task/1", some "abc", some 1700000000, none⟩)
        ConfirmOutcome.timeout "T0" =
      (PartSubResp.serverError "Subscribe timeout (no confirmation received)",
        [], true) := by
  have h := c3_timeout_no_partial_state [] "/task/1" "T0" (by decide)
  exact ⟨h.1, h.2.2.2.2.2 ⟨some "/task/1", some "abc", some 1700000000, none⟩
    rfl (by decide) (by decide) (by decide)⟩

/-- Claim C4 (corrected), counterexample: the claim states any
transport-level error during teardown is swallowed, the registry entry
is removed regardless, and `"unsubscribed"` is returned.  In the
`/unsubscribe` handler of `src/server.js` (cited lines 194–211), a
rejected `subscription.cancel()` is caught only by the handler-wide
`try`/`catch`, which responds 500 — the entry stays in the registry and
the status is not `"unsubscribed"`.  (This variant also never issues a
`disconnect`.) -/
theorem c4_cancel_error_cex :
    unsubscribeHandler [("/task/1", ⟨"T0"⟩)] (some "/task/1") true =
      (USrvResp.serverError "cancel failed", [("/task/1", ⟨"T0"⟩)])
    ∧ USrvResp.serverError "cancel failed" ≠ USrvResp.unsubscribed "/task/1" := by
  decide

/-- Claim C4 (amended): `unsubscribeFromChannel` of
`src/unnamed/part_000` satisfies the claim in full — `not_found` with
an unchanged registry when no entry exists; otherwise `cancel` and
`disconnect` are issued with each error individually swallowed (the
result is the same for every combination of failures), the entry is
removed regardless, and `"unsubscribed"` is returned.  The
`/unsubscribe` handler of `src/server.js` matches this only on the
no-entry path and on the path where `cancel` succeeds; a `cancel`
failure there yields a 500 with the entry retained (see the
counterexample). -/
theorem c4_unsubscribe_teardown (reg : Registry) (c : String) (cf df : Bool)
    (e : SubEntry) :
    (alookup c reg = none →
      unsubscribeFromChannel reg c cf df = ("not_found", reg))
    ∧ (alookup c reg = some e →
      unsubscribeFromChannel reg c cf df = ("unsubscribed", adelete reg c)
      ∧ alookup c (adelete reg c) = none)
    ∧ (alookup c reg = none → c ≠ "" →
      unsubscribeHandler reg (some c) cf = (USrvResp.notFound c, reg))
    ∧ (alookup c reg = some e → c ≠ "" → cf = false →
      unsubscribeHandler reg (some c) cf =
        (USrvResp.unsubscribed c, adelete reg c)) := by
  refine ⟨?_, ?_, ?_, ?_⟩
  · intro h
    simp [unsubscribeFromChannel, h]
  · intro h
    exact ⟨by simp [unsubscribeFromChannel, h], alookup_adelete_self reg c⟩
  · intro h hc
    simp [unsubscribeHandler, h, hc]
  · intro h hc hcf
    simp [unsubscribeHandler, h, hc, hcf, cancelCall]

/-- Claim C4 witness: the amended theorem applied with both teardown
calls failing — the entry is still removed and `"unsubscribed"`
returned — and to a channel with no entry. -/
theorem c4_unsubscribe_teardown_witness :
    unsubscribeFromChannel [("/task/1", ⟨"T0"⟩)] "/task/1" true true =
      ("unsubscribed", [])
    ∧ unsubscribeFromChannel [] "/task/1" false false = ("not_found", []) := by
  constructor
  · exact ((c4_unsubscribe_teardown [("/task/1", ⟨"T0"⟩)] "/task/1" true true
      ⟨"T0"⟩).2.1 (by decide)).1.trans (by decide)
  · exact (c4_unsubscribe_teardown [] "/task/1" false false ⟨"T0"⟩).1 (by decide)

/-- Claim C5 (confirmed): a webhook body declaring
`type: "subscription_verification"` with a (truthy) challenge value is
answered immediately with the handshake response echoing that exact
challenge, with no forward dispatch; the result does not depend on the
signature header (it is universally quantified and absent from the
right-hand side) nor on the verifier inputs (`hmac` and the secret are
likewise absent).  This holds for the handler of `src/server.js` and
for the second-variant handler (`src/unnamed/part_000` lines 309–318),
whose handshake branch does not even require the challenge to be
present. -/
theorem c5_handshake_echo (hmac : String → String → String)
    (secret appBase ava debug : Option String) (failAVA failDebug : Bool)
    (body : WebhookBody) (sigHeader : Option String)
    (ht : body.type = some "subscription_verification")
    (hch : truthyO body.challenge = true) :
    podioPushHandler hmac secret appBase ava debug failAVA failDebug body
        sigHeader =
      HResult.resp
        (PushResponse.handshake body.challenge ((appBase.getD "") ++ "/podio/push"))
        []
    ∧ podioPushHandlerV2 hmac secret appBase body sigHeader =
      VResult.resp
        (PushResponse.handshake body.challenge (jsTemplate appBase ++ "/podio/push"))
        false := by
  constructor
  · simp [podioPushHandler, ht, hch]
  · simp [podioPushHandlerV2, ht]

/-- Claim C5 witness: the end-to-end scenario-4 body
`{type:"subscription_verification", challenge:"xyz"}` with no signature
header; both handlers echo `"xyz"` and dispatch nothing. -/
theorem c5_handshake_echo_witness :
    podioPushHandler hmacDemo none none none none false false
        ⟨some "subscription_verification", some "xyz", "pb"⟩ none =
      HResult.resp (PushResponse.handshake (some "xyz") "/podio/push") []
    ∧ podioPushHandlerV2 hmacDemo none none
        ⟨some "subscription_verification", some "xyz", "pb"⟩ none =
      VResult.resp (PushResponse.handshake (some "xyz") "undefined/podio/push")
        false := by
  have h := c5_handshake_echo hmacDemo none none none none false false
    ⟨some "subscription_verification", some "xyz", "pb"⟩ none rfl (by decide)
  exact ⟨h.1.trans (by decide), h.2.trans (by decide)⟩

/-- Claim C6 (confirmed): in the `/podio/push` handler of
`src/server.js`, every non-handshake request whose signature header is
falsy, or whose signature fails verification, is answered 401 with an
empty dispatch list — no forward target is called; and conversely any
request that produced a non-empty dispatch list must have passed
signature verification. -/
theorem c6_reject_no_forward (hmac : String → String → String)
    (secret appBase ava debug : Option String) (failAVA failDebug : Bool)
    (body : WebhookBody) (sigHeader : Option String) :
    (¬(body.type = some "subscription_verification"
        ∧ truthyO body.challenge = true) →
      (truthyO sigHeader = false
        ∨ validatePodioSignature hmac secret body sigHeader =
            VerdictV.value false) →
      podioPushHandler hmac secret appBase ava debug failAVA failDebug body
          sigHeader =
        HResult.resp PushResponse.unauthorized [])
    ∧ (∀ r ds,
      podioPushHandler hmac secret appBase ava debug failAVA failDebug body
          sigHeader =
        HResult.resp r ds → ds ≠ [] →
      validatePodioSignature hmac secret body sigHeader =
        VerdictV.value true) := by
  constructor
  · intro hns hrej
    have hcond : (body.type == some "subscription_verification" &&
        truthyO body.challenge) = false := by
      cases h1 : (body.type == some "subscription_verification") with
      | false => simp
      | true =>
        cases h2 : truthyO body.challenge with
        | false => simp
        | true => exact absurd ⟨beq_iff_eq.mp h1, h2⟩ hns
    rcases hrej with h | h
    · simp [podioPushHandler, hcond, h]
    · by_cases hs : truthyO sigHeader = true
      · simp [podioPushHandler, hcond, hs, h]
      · simp [podioPushHandler, hcond, eq_false_of_ne_true hs]
  · intro r ds heq hds
    cases hv : validatePodioSignature hmac secret body sigHeader with
    | raised =>
      exfalso
      simp only [podioPushHandler, hv] at heq
      split_ifs at heq <;> cases heq <;> exact hds rfl
    | value b =>
      cases b with
      | true => rfl
      | false =>
        exfalso
        simp only [podioPushHandler, hv] at heq
        split_ifs at heq <;> cases heq <;> exact hds rfl

/-- Claim C6 witness: a non-handshake body with no signature header is
rejected 401 with no dispatch. -/
theorem c6_reject_no_forward_witness :
    podioPushHandler hmacDemo none none none none false false
        ⟨none, none, "pd"⟩ none =
      HResult.resp PushResponse.unauthorized [] := by
  exact (c6_reject_no_forward hmacDemo none none none none false false
    ⟨none, none, "pd"⟩ none).1 (by decide) (Or.inl rfl)

/-- Claim C7 (corrected), counterexample: the claim states the signature
verifier returns a boolean and never raises on any input including a
missing secret.  The `validatePodioSignature` variant of
`src/unnamed/part_000` (cited lines 265–272) keys `createHmac` with
`PODIO_PUSH_SECRET` directly, so with the secret unset the call raises
a `TypeError` instead of returning a boolean. -/
theorem c7_missing_secret_cex :
    validatePodioSignatureV2 hmacDemo none ⟨none, none, "body-json"⟩
        (some "00ff") =
      VerdictV.raised
    ∧ VerdictV.raised.isValue = false := by
  decide

/-- Claim C7 (amended): `validatePodioSignature` of `src/server.js` is
total — for every digest function, secret, body and provided signature
it returns a boolean (the `|| ""` fallback means `createHmac` always
receives a string key), in particular `false` when the signature is
missing, and it still returns a boolean when the secret is unset.  The
`src/unnamed/part_000` variant is total only when a secret is present
(and then also returns `false` on a missing signature); with the secret
unset it raises (see the counterexample). -/
theorem c7_verifier_total (hmac : String → String → String)
    (secret : Option String) (body : WebhookBody) (sig : Option String) :
    (validatePodioSignature hmac secret body sig).isValue = true
    ∧ (sig = none →
      validatePodioSignature hmac secret body sig = VerdictV.value false)
    ∧ (validatePodioSignature hmac none body sig).isValue = true
    ∧ (∀ k, (validatePodioSignatureV2 hmac (some k) body sig).isValue = true)
    ∧ (∀ k, sig = none →
      validatePodioSignatureV2 hmac (some k) body sig = VerdictV.value false) := by
  refine ⟨rfl, ?_, rfl, fun k => rfl, ?_⟩
  · intro h
    simp [validatePodioSignature, createHmacSha1, jsStrEq, h]
  · intro k h
    simp [validatePodioSignatureV2, createHmacSha1, jsStrEq, h]

/-- Claim C7 witness: the amended theorem applied with a missing
signature (and, for the second variant, a present secret). -/
theorem c7_verifier_total_witness :
    validatePodioSignature hmacDemo none ⟨none, none, "body-json"⟩ none =
      VerdictV.value false
    ∧ validatePodioSignatureV2 hmacDemo (some "s3cret") ⟨none, none, "body-json"⟩
        none =
      VerdictV.value false := by
  have h := c7_verifier_total hmacDemo none ⟨none, none, "body-json"⟩ none
  have h2 := c7_verifier_total hmacDemo (some "s3cret") ⟨none, none, "body-json"⟩
    none
  exact ⟨h.2.1 rfl, h2.2.2.2.2 "s3cret" rfl⟩

/-- Claim C8 (confirmed): relay dispatch is per-target independent.
Whatever the per-target failure pattern, (1) the list of attempted
targets is exactly the list attempted when nothing fails — a failure at
one target neither prevents nor adds dispatches elsewhere; (2) each
configured target receives its dispatch with an outcome depending only
on its own failure flag (so with the first of two targets failing, the
second still receives delivery); and (3) the webhook response is
unaffected by any delivery outcome — no forward error propagates back
to the envelope source.  Each forwarder catches its own `axios` error,
so the fan-out as a whole returns normally by construction. -/
theorem c8_relay_isolation (ava debug : Option String) (failAVA failDebug : Bool) :
    (relayList ava debug failAVA failDebug).map Prod.fst =
      (relayList ava debug false false).map Prod.fst
    ∧ (truthyO ava = true →
      (ava.getD "", !failAVA) ∈ relayList ava debug failAVA failDebug)
    ∧ (truthyO debug = true →
      (debug.getD "", !failDebug) ∈ relayList ava debug failAVA failDebug)
    ∧ (∀ (hmac : String → String → String) (secret appBase : Option String)
        (body : WebhookBody) (sig : Option String),
      respOfH (podioPushHandler hmac secret appBase ava debug failAVA failDebug
          body sig) =
        respOfH (podioPushHandler hmac secret appBase ava debug false false
          body sig)) := by
  refine ⟨?_, ?_, ?_, ?_⟩
  · by_cases ha : truthyO ava = true <;> by_cases hd : truthyO debug = true <;>
      cases failAVA <;> cases failDebug <;>
      simp [relayList, forwardToAVA, forwardToDebug, axiosPost, optList, ha, hd]
  · intro ha
    cases failAVA <;>
      simp [relayList, forwardToAVA, axiosPost, optList, ha]
  · intro hd
    refine List.mem_append_right _ ?_
    cases failDebug <;>
      simp [forwardToDebug, axiosPost, optList, hd]
  · intro hmac secret appBase body sig
    by_cases h1 : (body.type == some "subscription_verification" &&
        truthyO body.challenge) = true
    · simp [podioPushHandler, h1]
    · have h1' := eq_false_of_ne_true h1
      by_cases h2 : truthyO sig = true
      · cases hv : validatePodioSignature hmac secret body sig with
        | raised => simp [podioPushHandler, h1', h2, hv, respOfH]
        | value b =>
          cases b <;> simp [podioPushHandler, h1', h2, hv, respOfH]
      · simp [podioPushHandler, h1', eq_false_of_ne_true h2, respOfH]

/-- Claim C8 witness: two configured targets with the first failing —
the second still receives its delivery. -/
theorem c8_relay_isolation_witness :
    truthyO (some "http://debug.example") = true
    ∧ ("http://debug.example", true) ∈
      relayList (some "http://ava.example") (some "http://debug.example")
        true false := by
  refine ⟨by decide, ?_⟩
  have h := (c8_relay_isolation (some "http://ava.example")
    (some "http://debug.example") true false).2.2.1 (by decide)
  simpa using h

/-- Claim C9 (confirmed): every operation touches the registry only at
the channel it was called for.  Both subscribe implementations and both
unsubscribe implementations leave the entry of every other channel
unchanged (including the registry state held during the confirmation
wait), handlers called with a missing channel/body leave the registry
identical, and the webhook handler and both health endpoints never
mutate the registry at all. -/
theorem c9_registry_frame (reg : Registry) (c c' now : String)
    (out : ConfirmOutcome) (cf df : Bool) (p : PushBlob)
    (hmac : String → String → String)
    (secret appBase ava debug : Option String) (failAVA failDebug : Bool)
    (body : WebhookBody) (sig : Option String)
    (hne : c' ≠ c) :
    alookup c' (subscribeToChannel reg c out now).regFinal = alookup c' reg
    ∧ alookup c' (subscribeToChannel reg c out now).regAtWait = alookup c' reg
    ∧ alookup c' (unsubscribeFromChannel reg c cf df).2 = alookup c' reg
    ∧ (p.channel = some c →
      alookup c' (subscribeHandler reg (some p) now).2.1 = alookup c' reg)
    ∧ (subscribeHandler reg none now).2.1 = reg
    ∧ alookup c' (unsubscribeHandler reg (some c) cf).2 = alookup c' reg
    ∧ (unsubscribeHandler reg none cf).2 = reg
    ∧ (healthHandler reg).2 = reg
    ∧ (healthHandlerSrv reg).2 = reg
    ∧ (podioPushStep reg hmac secret appBase ava debug failAVA failDebug body
        sig).2 = reg := by
  refine ⟨?_, ?_, ?_, ?_, rfl, ?_, rfl, rfl, rfl, rfl⟩
  · by_cases h : (alookup c reg).isSome = true
    · simp [subscribeToChannel, h]
    · cases out <;>
        simp [subscribeToChannel, h, alookup_aset_ne reg ⟨now⟩ hne]
  · by_cases h : (alookup c reg).isSome = true
    · simp [subscribeToChannel, h]
    · cases out <;> simp [subscribeToChannel, h]
  · cases hl : alookup c reg with
    | none => simp [unsubscribeFromChannel, hl]
    | some e => simp [unsubscribeFromChannel, hl, alookup_adelete_ne reg hne]
  · intro hp
    by_cases hv : (truthyO p.channel && truthyO p.signature &&
        truthyN p.timestamp) = true
    · cases hl : alookup (p.channel.getD "") reg with
      | some e => simp [subscribeHandler, hv, hl]
      | none =>
        rw [hp] at hl hv
        simp only [Option.getD_some] at hl
        rw [Bool.and_eq_true, Bool.and_eq_true] at hv
        obtain ⟨⟨h1, h2⟩, h3⟩ := hv
        simp [subscribeHandler, h1, h2, h3, hp, hl,
          alookup_aset_ne reg ⟨now⟩ hne]
    · simp [subscribeHandler, eq_false_of_ne_true hv]
  · by_cases hc0 : c = ""
    · simp [unsubscribeHandler, hc0]
    · cases hl : alookup c reg with
      | none => simp [unsubscribeHandler, hc0, hl]
      | some e =>
        cases cf <;>
          simp [unsubscribeHandler, hc0, hl, cancelCall,
            alookup_adelete_ne reg hne]

/-- Claim C9 witness: applying the frame theorem with a registry holding
`"/task/1"` and operations on `"/task/2"` — the `"/task/1"` entry is
untouched. -/
theorem c9_registry_frame_witness :
    "/task/1" ≠ "/task/2"
    ∧ alookup "/task/1"
        (subscribeToChannel [("/task/1", ⟨"T0"⟩)] "/task/2"
          ConfirmOutcome.confirmed "T1").regFinal =
      alookup "/task/1" ([("/task/1", ⟨"T0"⟩)] : Registry)
    ∧ alookup "/task/1"
        (unsubscribeFromChannel [("/task/1", ⟨"T0"⟩)] "/task/2" false false).2 =
      alookup "/task/1" ([("/task/1", ⟨"T0"⟩)] : Registry) := by
  have h := c9_registry_frame [("/task/1", ⟨"T0"⟩)] "/task/2" "/task/1" "T1"
    ConfirmOutcome.confirmed false false
    ⟨some "/task/2", some "sig9", some 1, none⟩ hmacDemo none none none none
    false false ⟨none, none, "pb"⟩ none (by decide)
  exact ⟨by decide, h.1, h.2.2.1⟩

/-- Claim C10 (confirmed): in the `/podio/push` handler of
`src/server.js` (line 117 requires `body.challenge` to be truthy), a
body with `type: "subscription_verification"` but an absent or falsy
challenge is not answered with a handshake response; it falls through
to signature verification and is rejected 401 on a missing/falsy
header or failed verification, or accepted and relayed on success,
exactly like a regular event. -/
theorem c10_falsy_challenge_fallthrough (hmac : String → String → String)
    (secret appBase ava debug : Option String) (failAVA failDebug : Bool)
    (body : WebhookBody) (sig : Option String)
    (_ht : body.type = some "subscription_verification")
    (hch : truthyO body.challenge = false) :
    (∀ r ds,
      podioPushHandler hmac secret appBase ava debug failAVA failDebug body
          sig =
        HResult.resp r ds → r.isHandshake = false)
    ∧ (truthyO sig = false →
      podioPushHandler hmac secret appBase ava debug failAVA failDebug body
          sig =
        HResult.resp PushResponse.unauthorized [])
    ∧ (truthyO sig = true →
      validatePodioSignature hmac secret body sig = VerdictV.value true →
      podioPushHandler hmac secret appBase ava debug failAVA failDebug body
          sig =
        HResult.resp PushResponse.okAccepted
          (relayList ava debug failAVA failDebug))
    ∧ (truthyO sig = true →
      validatePodioSignature hmac secret body sig = VerdictV.value false →
      podioPushHandler hmac secret appBase ava debug failAVA failDebug body
          sig =
        HResult.resp PushResponse.unauthorized []) := by
  have hcond : (body.type == some "subscription_verification" &&
      truthyO body.challenge) = false := by
    simp [hch]
  refine ⟨?_, ?_, ?_, ?_⟩
  · intro r ds heq
    simp only [podioPushHandler, hcond, Bool.false_eq_true, if_false] at heq
    by_cases hs : truthyO sig = true
    · rw [hs] at heq
      simp only [Bool.not_true, Bool.false_eq_true, if_false] at heq
      cases hv : validatePodioSignature hmac secret body sig with
      | raised =>
        rw [hv] at heq
        cases heq
      | value b =>
        cases b <;> (rw [hv] at heq; cases heq; rfl)
    · rw [eq_false_of_ne_true hs] at heq
      simp only [Bool.not_false, if_true] at heq
      cases heq
      rfl
  · intro hs
    simp [podioPushHandler, hcond, hs]
  · intro hs hv
    simp [podioPushHandler, hcond, hs, hv]
  · intro hs hv
    simp [podioPushHandler, hcond, hs, hv]

/-- Claim C10 witness: `{type:"subscription_verification"}` with no
challenge and no signature header is rejected 401, not answered as a
handshake. -/
theorem c10_falsy_challenge_fallthrough_witness :
    podioPushHandler hmacDemo none none none none false false
        ⟨some "subscription_verification", none, "pj"⟩ none =
      HResult.resp PushResponse.unauthorized [] := by
  exact (c10_falsy_challenge_fallthrough hmacDemo none none none none false
    false ⟨some "subscription_verification", none, "pj"⟩ none rfl rfl).2.1 rfl
